import Mathlib

/-!
Verification of the mirrored-character data table in
`src/jdk/src/share/native/sun/font/layout/MirroredCharData.cpp`
(`DefaultCharMapper::mirroredChars`, `DefaultCharMapper::srahCderorrim`,
`DefaultCharMapper::mirroredCharsCount`).

The source file is pure constant data: two parallel arrays of 32-bit
Unicode code points and a count.  Code points are embedded as `Nat`
(every stored value fits far below `2 ^ 32`, so no overflow arithmetic
is involved).  The lookup operations (`mirrorOf`, `isMirrored`, binary
search) are consumers of the table described by the specification; they
are modelled here explicitly.
-/

namespace MirroredCharData

/-- `DefaultCharMapper::mirroredChars` from MirroredCharData.cpp, lines 39-82:
the source code points, transcribed verbatim. -/
def mirroredChars : List Nat := [
  0x0028, 0x0029, 0x003C, 0x003E, 0x005B, 0x005D, 0x007B, 0x007D,
  0x00AB, 0x00BB, 0x2039, 0x203A, 0x2045, 0x2046, 0x207D, 0x207E,
  0x208D, 0x208E, 0x2208, 0x2209, 0x220A, 0x220B, 0x220C, 0x220D,
  0x2215, 0x223C, 0x223D, 0x2243, 0x2252, 0x2253, 0x2254, 0x2255,
  0x2264, 0x2265, 0x2266, 0x2267, 0x2268, 0x2269, 0x226A, 0x226B,
  0x226E, 0x226F, 0x2270, 0x2271, 0x2272, 0x2273, 0x2274, 0x2275,
  0x2276, 0x2277, 0x2278, 0x2279, 0x227A, 0x227B, 0x227C, 0x227D,
  0x227E, 0x227F, 0x2280, 0x2281, 0x2282, 0x2283, 0x2284, 0x2285,
  0x2286, 0x2287, 0x2288, 0x2289, 0x228A, 0x228B, 0x228F, 0x2290,
  0x2291, 0x2292, 0x2298, 0x22A2, 0x22A3, 0x22A6, 0x22A8, 0x22A9,
  0x22AB, 0x22B0, 0x22B1, 0x22B2, 0x22B3, 0x22B4, 0x22B5, 0x22B6,
  0x22B7, 0x22C9, 0x22CA, 0x22CB, 0x22CC, 0x22CD, 0x22D0, 0x22D1,
  0x22D6, 0x22D7, 0x22D8, 0x22D9, 0x22DA, 0x22DB, 0x22DC, 0x22DD,
  0x22DE, 0x22DF, 0x22E0, 0x22E1, 0x22E2, 0x22E3, 0x22E4, 0x22E5,
  0x22E6, 0x22E7, 0x22E8, 0x22E9, 0x22EA, 0x22EB, 0x22EC, 0x22ED,
  0x22F0, 0x22F1, 0x22F2, 0x22F3, 0x22F4, 0x22F6, 0x22F7, 0x22FA,
  0x22FB, 0x22FC, 0x22FD, 0x22FE, 0x2308, 0x2309, 0x230A, 0x230B,
  0x2329, 0x232A, 0x2768, 0x2769, 0x276A, 0x276B, 0x276C, 0x276D,
  0x276E, 0x276F, 0x2770, 0x2771, 0x2772, 0x2773, 0x2774, 0x2775,
  0x27C3, 0x27C4, 0x27C5, 0x27C6, 0x27D5, 0x27D6, 0x27DD, 0x27DE,
  0x27E2, 0x27E3, 0x27E4, 0x27E5, 0x27E6, 0x27E7, 0x27E8, 0x27E9,
  0x27EA, 0x27EB, 0x2983, 0x2984, 0x2985, 0x2986, 0x2987, 0x2988,
  0x2989, 0x298A, 0x298B, 0x298C, 0x298D, 0x298E, 0x298F, 0x2990,
  0x2991, 0x2992, 0x2993, 0x2994, 0x2995, 0x2996, 0x2997, 0x2998,
  0x29B8, 0x29C0, 0x29C1, 0x29C4, 0x29C5, 0x29CF, 0x29D0, 0x29D1,
  0x29D2, 0x29D4, 0x29D5, 0x29D8, 0x29D9, 0x29DA, 0x29DB, 0x29F5,
  0x29F8, 0x29F9, 0x29FC, 0x29FD, 0x2A2B, 0x2A2C, 0x2A2D, 0x2A2E,
  0x2A34, 0x2A35, 0x2A3C, 0x2A3D, 0x2A64, 0x2A65, 0x2A79, 0x2A7A,
  0x2A7D, 0x2A7E, 0x2A7F, 0x2A80, 0x2A81, 0x2A82, 0x2A83, 0x2A84,
  0x2A8B, 0x2A8C, 0x2A91, 0x2A92, 0x2A93, 0x2A94, 0x2A95, 0x2A96,
  0x2A97, 0x2A98, 0x2A99, 0x2A9A, 0x2A9B, 0x2A9C, 0x2AA1, 0x2AA2,
  0x2AA6, 0x2AA7, 0x2AA8, 0x2AA9, 0x2AAA, 0x2AAB, 0x2AAC, 0x2AAD,
  0x2AAF, 0x2AB0, 0x2AB3, 0x2AB4, 0x2ABB, 0x2ABC, 0x2ABD, 0x2ABE,
  0x2ABF, 0x2AC0, 0x2AC1, 0x2AC2, 0x2AC3, 0x2AC4, 0x2AC5, 0x2AC6,
  0x2ACD, 0x2ACE, 0x2ACF, 0x2AD0, 0x2AD1, 0x2AD2, 0x2AD3, 0x2AD4,
  0x2AD5, 0x2AD6, 0x2ADE, 0x2AE3, 0x2AE4, 0x2AE5, 0x2AEC, 0x2AED,
  0x2AF7, 0x2AF8, 0x2AF9, 0x2AFA, 0x2E02, 0x2E03, 0x2E04, 0x2E05,
  0x2E09, 0x2E0A, 0x2E0C, 0x2E0D, 0x2E1C, 0x2E1D, 0x3008, 0x3009,
  0x300A, 0x300B, 0x300C, 0x300D, 0x300E, 0x300F, 0x3010, 0x3011,
  0x3014, 0x3015, 0x3016, 0x3017, 0x3018, 0x3019, 0x301A, 0x301B,
  0xFF08, 0xFF09, 0xFF1C, 0xFF1E, 0xFF3B, 0xFF3D, 0xFF5B, 0xFF5D,
  0xFF5F, 0xFF60, 0xFF62, 0xFF63
]

/-- `DefaultCharMapper::srahCderorrim` from MirroredCharData.cpp, lines 84-127:
the mirror code points, parallel to `mirroredChars`, transcribed verbatim. -/
def srahCderorrim : List Nat := [
  0x0029, 0x0028, 0x003E, 0x003C, 0x005D, 0x005B, 0x007D, 0x007B,
  0x00BB, 0x00AB, 0x203A, 0x2039, 0x2046, 0x2045, 0x207E, 0x207D,
  0x208E, 0x208D, 0x220B, 0x220C, 0x220D, 0x2208, 0x2209, 0x220A,
  0x29F5, 0x223D, 0x223C, 0x22CD, 0x2253, 0x2252, 0x2255, 0x2254,
  0x2265, 0x2264, 0x2267, 0x2266, 0x2269, 0x2268, 0x226B, 0x226A,
  0x226F, 0x226E, 0x2271, 0x2270, 0x2273, 0x2272, 0x2275, 0x2274,
  0x2277, 0x2276, 0x2279, 0x2278, 0x227B, 0x227A, 0x227D, 0x227C,
  0x227F, 0x227E, 0x2281, 0x2280, 0x2283, 0x2282, 0x2285, 0x2284,
  0x2287, 0x2286, 0x2289, 0x2288, 0x228B, 0x228A, 0x2290, 0x228F,
  0x2292, 0x2291, 0x29B8, 0x22A3, 0x22A2, 0x2ADE, 0x2AE4, 0x2AE3,
  0x2AE5, 0x22B1, 0x22B0, 0x22B3, 0x22B2, 0x22B5, 0x22B4, 0x22B7,
  0x22B6, 0x22CA, 0x22C9, 0x22CC, 0x22CB, 0x2243, 0x22D1, 0x22D0,
  0x22D7, 0x22D6, 0x22D9, 0x22D8, 0x22DB, 0x22DA, 0x22DD, 0x22DC,
  0x22DF, 0x22DE, 0x22E1, 0x22E0, 0x22E3, 0x22E2, 0x22E5, 0x22E4,
  0x22E7, 0x22E6, 0x22E9, 0x22E8, 0x22EB, 0x22EA, 0x22ED, 0x22EC,
  0x22F1, 0x22F0, 0x22FA, 0x22FB, 0x22FC, 0x22FD, 0x22FE, 0x22F2,
  0x22F3, 0x22F4, 0x22F6, 0x22F7, 0x2309, 0x2308, 0x230B, 0x230A,
  0x232A, 0x2329, 0x2769, 0x2768, 0x276B, 0x276A, 0x276D, 0x276C,
  0x276F, 0x276E, 0x2771, 0x2770, 0x2773, 0x2772, 0x2775, 0x2774,
  0x27C4, 0x27C3, 0x27C6, 0x27C5, 0x27D6, 0x27D5, 0x27DE, 0x27DD,
  0x27E3, 0x27E2, 0x27E5, 0x27E4, 0x27E7, 0x27E6, 0x27E9, 0x27E8,
  0x27EB, 0x27EA, 0x2984, 0x2983, 0x2986, 0x2985, 0x2988, 0x2987,
  0x298A, 0x2989, 0x298C, 0x298B, 0x2990, 0x298F, 0x298E, 0x298D,
  0x2992, 0x2991, 0x2994, 0x2993, 0x2996, 0x2995, 0x2998, 0x2997,
  0x2298, 0x29C1, 0x29C0, 0x29C5, 0x29C4, 0x29D0, 0x29CF, 0x29D2,
  0x29D1, 0x29D5, 0x29D4, 0x29D9, 0x29D8, 0x29DB, 0x29DA, 0x2215,
  0x29F9, 0x29F8, 0x29FD, 0x29FC, 0x2A2C, 0x2A2B, 0x2A2E, 0x2A2D,
  0x2A35, 0x2A34, 0x2A3D, 0x2A3C, 0x2A65, 0x2A64, 0x2A7A, 0x2A79,
  0x2A7E, 0x2A7D, 0x2A80, 0x2A7F, 0x2A82, 0x2A81, 0x2A84, 0x2A83,
  0x2A8C, 0x2A8B, 0x2A92, 0x2A91, 0x2A94, 0x2A93, 0x2A96, 0x2A95,
  0x2A98, 0x2A97, 0x2A9A, 0x2A99, 0x2A9C, 0x2A9B, 0x2AA2, 0x2AA1,
  0x2AA7, 0x2AA6, 0x2AA9, 0x2AA8, 0x2AAB, 0x2AAA, 0x2AAD, 0x2AAC,
  0x2AB0, 0x2AAF, 0x2AB4, 0x2AB3, 0x2ABC, 0x2ABB, 0x2ABE, 0x2ABD,
  0x2AC0, 0x2ABF, 0x2AC2, 0x2AC1, 0x2AC4, 0x2AC3, 0x2AC6, 0x2AC5,
  0x2ACE, 0x2ACD, 0x2AD0, 0x2ACF, 0x2AD2, 0x2AD1, 0x2AD4, 0x2AD3,
  0x2AD6, 0x2AD5, 0x22A6, 0x22A9, 0x22A8, 0x22AB, 0x2AED, 0x2AEC,
  0x2AF8, 0x2AF7, 0x2AFA, 0x2AF9, 0x2E03, 0x2E02, 0x2E05, 0x2E04,
  0x2E0A, 0x2E09, 0x2E0D, 0x2E0C, 0x2E1D, 0x2E1C, 0x3009, 0x3008,
  0x300B, 0x300A, 0x300D, 0x300C, 0x300F, 0x300E, 0x3011, 0x3010,
  0x3015, 0x3014, 0x3017, 0x3016, 0x3019, 0x3018, 0x301B, 0x301A,
  0xFF09, 0xFF08, 0xFF1E, 0xFF1C, 0xFF3D, 0xFF3B, 0xFF5D, 0xFF5B,
  0xFF60, 0xFF5F, 0xFF63, 0xFF62
]

/-- `DefaultCharMapper::mirroredCharsCount` from MirroredCharData.cpp, line 129. -/
def mirroredCharsCount : Nat := 332

/-- The table as a list of (source, mirror) pairs: entry `i` pairs
`mirroredChars[i]` with `srahCderorrim[i]`. -/
def mirrorPairs : List (Nat × Nat) := mirroredChars.zip srahCderorrim

/-- Modelled from the spec: `mirrorOf(code)` returns the mirror of `code`
if `code` appears as a source in the table, else none ("no mapping").
The lookup consumer itself (`DefaultCharMapper::mapChar`) is not part of
the repository snapshot; this is the reference linear-scan lookup the
specification describes, mapping `mirroredChars[i]` to `srahCderorrim[i]`. -/
def mirrorOf (c : Nat) : Option Nat :=
  (mirrorPairs.find? (fun p => p.1 == c)).map Prod.snd

/-- Modelled from the spec: `isMirrored(code)` is true iff `code` appears
as a source in the table. -/
def isMirrored (c : Nat) : Bool := mirroredChars.contains c

end MirroredCharData

namespace MirroredCharData

set_option maxRecDepth 40000

/-- Boolean check that a list of naturals is strictly increasing
(adjacent-pair check, executable). -/
def isSortedLt : List Nat → Bool
  | a :: b :: t => Nat.blt a b && isSortedLt (b :: t)
  | _ => true

/-- Modelled from the spec: binary search over the ascending source array,
searching the half-open index interval `[lo, hi)` and returning the
parallel mirror entry at the found index.  The binary-search consumer
(`DefaultCharMapper::mapChar`) is not part of the repository snapshot;
this follows the algorithm the specification prescribes. -/
def bsearchAux (src mir : List Nat) (c lo hi : Nat) : Option Nat :=
  if h : lo < hi then
    if src.getD ((lo + hi) / 2) 0 < c then
      bsearchAux src mir c ((lo + hi) / 2 + 1) hi
    else if c < src.getD ((lo + hi) / 2) 0 then
      bsearchAux src mir c lo ((lo + hi) / 2)
    else
      some (mir.getD ((lo + hi) / 2) 0)
  else none
termination_by hi - lo
decreasing_by all_goals omega

/-- Modelled from the spec: the binary-search lookup over the whole table. -/
def mirrorOfBin (c : Nat) : Option Nat :=
  bsearchAux mirroredChars srahCderorrim c 0 mirroredChars.length

/-- A strictly increasing adjacent-pair check gives strict monotonicity
at arbitrary index pairs (via `getD`). -/
theorem isSortedLt_getD (l : List Nat) (hs : isSortedLt l = true) :
    ∀ a b, a < b → b < l.length → l.getD a 0 < l.getD b 0 := by
  induction l with
  | nil => intro a b _ hb; simp at hb
  | cons x t ih =>
    intro a b hab hb
    cases t with
    | nil =>
      simp only [List.length_cons, List.length_nil] at hb
      omega
    | cons y t2 =>
      rw [isSortedLt, Bool.and_eq_true] at hs
      obtain ⟨hxy, hrest⟩ := hs
      have hxy' : x < y := Nat.blt_eq.mp hxy
      simp only [List.length_cons] at hb
      cases a with
      | zero =>
        cases b with
        | zero => omega
        | succ b' =>
          simp only [List.getD_cons_zero, List.getD_cons_succ]
          cases b' with
          | zero => simpa using hxy'
          | succ b2 =>
            have h0b : (y :: t2).getD 0 0 < (y :: t2).getD (b2 + 1) 0 :=
              ih hrest 0 (b2 + 1) (by omega) (by simp only [List.length_cons]; omega)
            simp only [List.getD_cons_zero, List.getD_cons_succ] at h0b
            simp only [List.getD_cons_succ]
            omega
      | succ a' =>
        cases b with
        | zero => omega
        | succ b' =>
          simp only [List.getD_cons_succ]
          exact ih hrest a' b' (by omega) (by simp only [List.length_cons]; omega)

/-- Soundness of `bsearchAux`: a successful search exhibits an index in
`[lo, hi)` holding the key and the returned mirror value. -/
theorem bsearchAux_some (src mir : List Nat) (c lo hi v : Nat)
    (h : bsearchAux src mir c lo hi = some v) :
    ∃ i, lo ≤ i ∧ i < hi ∧ src.getD i 0 = c ∧ mir.getD i 0 = v := by
  rw [bsearchAux] at h
  by_cases hlt : lo < hi
  · rw [dif_pos hlt] at h
    by_cases h1 : src.getD ((lo + hi) / 2) 0 < c
    · rw [if_pos h1] at h
      obtain ⟨i, h2, h3, h4, h5⟩ := bsearchAux_some src mir c ((lo + hi) / 2 + 1) hi v h
      exact ⟨i, by omega, h3, h4, h5⟩
    · rw [if_neg h1] at h
      by_cases h2 : c < src.getD ((lo + hi) / 2) 0
      · rw [if_pos h2] at h
        obtain ⟨i, h3, h4, h5, h6⟩ := bsearchAux_some src mir c lo ((lo + hi) / 2) v h
        exact ⟨i, h3, by omega, h5, h6⟩
      · rw [if_neg h2] at h
        refine ⟨(lo + hi) / 2, by omega, by omega, by omega, ?_⟩
        exact Option.some.inj h
  · rw [dif_neg hlt] at h
    exact absurd h (by simp)
termination_by hi - lo
decreasing_by all_goals omega

/-- Completeness of `bsearchAux` on a strictly sorted source array: if the
key sits at index `i` inside the searched interval, the search returns the
mirror entry at `i`. -/
theorem bsearchAux_complete (src mir : List Nat) (c lo hi i : Nat)
    (hs : ∀ a b, a < b → b < src.length → src.getD a 0 < src.getD b 0)
    (hhi : hi ≤ src.length)
    (hilo : lo ≤ i) (hihi : i < hi) (hc : src.getD i 0 = c) :
    bsearchAux src mir c lo hi = some (mir.getD i 0) := by
  have hlt : lo < hi := by omega
  rw [bsearchAux, dif_pos hlt]
  by_cases h1 : src.getD ((lo + hi) / 2) 0 < c
  · rw [if_pos h1]
    have hmi : (lo + hi) / 2 < i := by
      rcases Nat.lt_trichotomy i ((lo + hi) / 2) with h | h | h
      · have := hs i ((lo + hi) / 2) h (by omega)
        omega
      · rw [h] at hc
        omega
      · exact h
    exact bsearchAux_complete src mir c ((lo + hi) / 2 + 1) hi i hs hhi (by omega) hihi hc
  · rw [if_neg h1]
    by_cases h2 : c < src.getD ((lo + hi) / 2) 0
    · rw [if_pos h2]
      have him : i < (lo + hi) / 2 := by
        rcases Nat.lt_trichotomy i ((lo + hi) / 2) with h | h | h
        · exact h
        · rw [h] at hc
          omega
        · have := hs ((lo + hi) / 2) i h (by omega)
          omega
      exact bsearchAux_complete src mir c lo ((lo + hi) / 2) i hs (by omega) hilo him hc
    · rw [if_neg h2]
      have heq : i = (lo + hi) / 2 := by
        rcases Nat.lt_trichotomy i ((lo + hi) / 2) with h | h | h
        · have := hs i ((lo + hi) / 2) h (by omega)
          omega
        · exact h
        · have := hs ((lo + hi) / 2) i h (by omega)
          omega
      rw [heq]
termination_by hi - lo
decreasing_by all_goals omega

end MirroredCharData

namespace MirroredCharData

set_option maxRecDepth 40000

/-- The forward array is 332 entries long. -/
theorem mirroredChars_length : mirroredChars.length = 332 := by decide

/-- The mirror array is 332 entries long. -/
theorem srahCderorrim_length : srahCderorrim.length = 332 := by decide

/-- The zipped pair table is 332 entries long. -/
theorem mirrorPairs_length : mirrorPairs.length = 332 := by
  simp [mirrorPairs, List.length_zip, mirroredChars_length, srahCderorrim_length]

/-- The forward array passes the executable adjacent-sortedness check. -/
theorem mirroredChars_isSortedLt : isSortedLt mirroredChars = true := by decide

/-- Bridge from `getD` with default 0 to bounds-checked indexing. -/
theorem getD_eq_getElem0 (l : List Nat) (i : Nat) (h : i < l.length) :
    l.getD i 0 = l[i] := by
  simp [List.getD_eq_getElem?_getD, List.getElem?_eq_getElem h]

end MirroredCharData

namespace MirroredCharData

set_option maxRecDepth 40000

/-- C1: the sequence of source code points is strictly increasing: for every
pair of indices i < j within the 332 entries, mirroredChars[i] <
mirroredChars[j]; hence every source value is unique. -/
theorem mirroredChars_strictly_increasing (i j : Nat) (hij : i < j)
    (hj : j < mirroredChars.length) :
    mirroredChars.getD i 0 < mirroredChars.getD j 0 :=
  isSortedLt_getD mirroredChars mirroredChars_isSortedLt i j hij hj

/-- Witness for C1 at indices 0 and 1. -/
theorem mirroredChars_strictly_increasing_witness :
    0 < 1 ∧ 1 < mirroredChars.length ∧
      mirroredChars.getD 0 0 < mirroredChars.getD 1 0 :=
  ⟨by decide, by decide,
    mirroredChars_strictly_increasing 0 1 (by decide) (by decide)⟩

/-- C2: the table is involutive: for every entry (a, b) of the pair table,
(b, a) is also an entry of the pair table. -/
theorem mirrorPairs_involutive :
    ∀ p ∈ mirrorPairs, (p.2, p.1) ∈ mirrorPairs := by decide

/-- Witness for C2 at the entry (0x0028, 0x0029). -/
theorem mirrorPairs_involutive_witness :
    ((0x0028, 0x0029) : Nat × Nat) ∈ mirrorPairs ∧
      ((0x0029, 0x0028) : Nat × Nat) ∈ mirrorPairs :=
  ⟨by decide, mirrorPairs_involutive (0x0028, 0x0029) (by decide)⟩

/-- C3: round-trip law: for every code point c that appears as a source,
mirrorOf c is defined and mirrorOf (mirrorOf c) = some c. -/
theorem mirrorOf_roundtrip :
    ∀ c ∈ mirroredChars,
      (mirrorOf c).isSome = true ∧ (mirrorOf c).bind mirrorOf = some c := by
  decide

/-- Witness for C3 at c = 0x0028. -/
theorem mirrorOf_roundtrip_witness :
    (0x0028 : Nat) ∈ mirroredChars ∧
      (mirrorOf 0x0028).isSome = true ∧
      (mirrorOf 0x0028).bind mirrorOf = some 0x0028 :=
  ⟨by decide, mirrorOf_roundtrip 0x0028 (by decide)⟩

/-- C4: the count field equals 332, and 332 is the length of both the
forward array and the mirror array. -/
theorem mirroredCharsCount_consistent :
    mirroredCharsCount = 332 ∧ mirroredChars.length = mirroredCharsCount ∧
      srahCderorrim.length = mirroredCharsCount := by decide

/-- C5: for every code point c that is not a source in the table, mirrorOf c
is the normal "no mapping" result none (the lookup is total; absence is not
a failure). -/
theorem mirrorOf_absent_none (c : Nat) (hc : c ∉ mirroredChars) :
    mirrorOf c = none := by
  unfold mirrorOf
  have hfind : mirrorPairs.find? (fun p => p.1 == c) = none := by
    rw [List.find?_eq_none]
    rintro ⟨a, b⟩ hp hbeq
    simp only [mirrorPairs] at hp
    have ha : a = c := by simpa using hbeq
    exact hc (ha ▸ (List.of_mem_zip hp).1)
  rw [hfind]
  rfl

/-- Witness for C5 at c = 0x0041. -/
theorem mirrorOf_absent_none_witness :
    (0x0041 : Nat) ∉ mirroredChars ∧ mirrorOf 0x0041 = none :=
  ⟨by decide, mirrorOf_absent_none 0x0041 (by decide)⟩

/-- C6: mirrorOf 0x0028 returns 0x0029 and mirrorOf 0x0029 returns 0x0028. -/
theorem mirrorOf_parens :
    mirrorOf 0x0028 = some 0x0029 ∧ mirrorOf 0x0029 = some 0x0028 := by
  decide

/-- C7: isMirrored 0x2264 is true and mirrorOf 0x2264 returns 0x2265, where
isMirrored c is true iff c appears as a source in the table. -/
theorem isMirrored_leq :
    isMirrored 0x2264 = true ∧ mirrorOf 0x2264 = some 0x2265 ∧
      ∀ c, isMirrored c = true ↔ c ∈ mirroredChars := by
  refine ⟨by decide, by decide, fun c => ?_⟩
  simp [isMirrored, List.contains_iff_exists_mem_beq, beq_iff_eq]

end MirroredCharData

namespace MirroredCharData

set_option maxRecDepth 40000

/-- C9 counterexample: the claim that srahCderorrim is itself sorted is
false: at indices 0 and 1 the array holds 0x0029 and then 0x0028, which is
a strict decrease. -/
theorem srahCderorrim_not_sorted :
    srahCderorrim.getD 0 0 = 0x0029 ∧ srahCderorrim.getD 1 0 = 0x0028 ∧
      ¬ srahCderorrim.getD 0 0 < srahCderorrim.getD 1 0 := by decide

/-- C9 amended: srahCderorrim stores the mirror counterparts in the forward
table's order (a parallel array), not in sorted order; it is a permutation
of mirroredChars, so every reverse lookup target is itself a forward source
and can be resolved through the forward table. -/
theorem srahCderorrim_perm_mirroredChars :
    srahCderorrim.Perm mirroredChars := by decide

/-- C10: at every index i of the 332 entries the source differs from its
mirror (no code point maps to itself), and both values fit in the Basic
Multilingual Plane (are at most 0xFFFF). -/
theorem mirrorPairs_no_fixpoint_bmp :
    ∀ p ∈ mirrorPairs,
      p.1 ≠ p.2 ∧ p.1 ≤ 0xFFFF ∧ p.2 ≤ 0xFFFF := by decide

/-- Witness for C10 at the first entry (0x0028, 0x0029). -/
theorem mirrorPairs_no_fixpoint_bmp_witness :
    ((0x0028, 0x0029) : Nat × Nat) ∈ mirrorPairs ∧
      ((0x0028 : Nat) ≠ 0x0029 ∧ (0x0028 : Nat) ≤ 0xFFFF ∧
        (0x0029 : Nat) ≤ 0xFFFF) :=
  ⟨by decide, mirrorPairs_no_fixpoint_bmp (0x0028, 0x0029) (by decide)⟩

/-- C8: the binary-search lookup over the ascending source array agrees
with the reference linear-scan lookup at every code point. -/
theorem mirrorOfBin_eq_mirrorOf (c : Nat) : mirrorOfBin c = mirrorOf c := by
  have hsort := isSortedLt_getD mirroredChars mirroredChars_isSortedLt
  cases hm : mirrorOf c with
  | none =>
    have hfind : mirrorPairs.find? (fun p => p.1 == c) = none := by
      unfold mirrorOf at hm
      cases hf : mirrorPairs.find? (fun p => p.1 == c) with
      | none => rfl
      | some p => rw [hf] at hm; simp at hm
    have hnone := List.find?_eq_none.mp hfind
    cases hb : mirrorOfBin c with
    | none => rfl
    | some v =>
      exfalso
      unfold mirrorOfBin at hb
      obtain ⟨i, _, hih, hsrc, _⟩ := bsearchAux_some _ _ _ _ _ _ hb
      have hiz : i < mirrorPairs.length := by
        rw [mirrorPairs_length]
        rw [mirroredChars_length] at hih
        exact hih
      have happ := hnone mirrorPairs[i] (List.getElem_mem hiz)
      have hzip : mirrorPairs[i] =
          (mirroredChars[i], srahCderorrim[i]) := by
        simp only [mirrorPairs, List.getElem_zip]
      rw [hzip] at happ
      rw [getD_eq_getElem0 mirroredChars i hih] at hsrc
      exact happ (by simpa using hsrc)
  | some v =>
    unfold mirrorOf at hm
    cases hf : mirrorPairs.find? (fun p => p.1 == c) with
    | none => rw [hf] at hm; simp at hm
    | some p =>
      rw [hf] at hm
      simp only [Option.map_some'] at hm
      have hpc : p.1 = c := by simpa using List.find?_some hf
      obtain ⟨i, hi, hgeti⟩ :=
        List.mem_iff_getElem.mp (List.mem_of_find?_eq_some hf)
      have hzip : mirrorPairs[i] =
          (mirroredChars[i], srahCderorrim[i]) := by
        simp only [mirrorPairs, List.getElem_zip]
      rw [hzip] at hgeti
      have hiM : i < mirroredChars.length := by
        rw [mirroredChars_length]
        rw [mirrorPairs_length] at hi
        exact hi
      have hiS : i < srahCderorrim.length := by
        rw [srahCderorrim_length]
        rw [mirrorPairs_length] at hi
        exact hi
      have hsrc : mirroredChars.getD i 0 = c := by
        rw [getD_eq_getElem0 mirroredChars i hiM]
        rw [← hpc, ← hgeti]
      have hres := bsearchAux_complete mirroredChars srahCderorrim c 0
        mirroredChars.length i hsort (Nat.le_refl _) (Nat.zero_le _) hiM hsrc
      unfold mirrorOfBin
      rw [hres, getD_eq_getElem0 srahCderorrim i hiS]
      rw [← hgeti] at hm
      exact hm

end MirroredCharData
